import Mathlib

/-!
Verification of the scroll-spy navigation of the Resources page
(`src/app/(pages)/resources/page.tsx`).

The page's `ResourceNav` component keeps two pieces of React state,
`activeId : string` and `isManualScroll : boolean`.  An effect registers a
`handleScroll` window listener that walks all `div[data-section]` elements
and updates `activeId`; clicking a nav item calls `scrollToId`, which
smooth-scrolls to the clicked section and suppresses the scroll listener
for 800 ms.  We embed that logic shallowly: DOM elements become a list of
records carrying `id` and `offsetTop`, the React state becomes an explicit
state record, and each callback becomes a pure state transformer.
-/

/-- A DOM element as the page observes it: its `id` attribute and its
`offsetTop`.  The `div[data-section]` elements produced by `ResourceCard`
always carry an `id` equal to their `data-section` value. -/
structure Section' where
  id : String
  offsetTop : Int
  deriving DecidableEq, Repr

/-- The React state of `ResourceNav`: `useState("")` for the active id and
`useState(false)` for the manual-scroll flag. -/
structure NavState where
  activeId : String
  isManualScroll : Bool
  deriving DecidableEq, Repr

/-- The initial React state: `useState("")` and `useState(false)`. -/
def initialState : NavState := { activeId := "", isManualScroll := false }

/-- `SCROLL_OFFSET = 80`. -/
def SCROLL_OFFSET : Int := 80

/-- The body of one iteration of the `sectionsRef.current?.forEach` loop in
`handleScroll`: `const sectionTop = section.offsetTop - SCROLL_OFFSET;
if (window.scrollY >= sectionTop && window.scrollY > 0)
setActiveId(section.getAttribute("id"))`. -/
def scrollStep (scrollY : Int) (s : NavState) (sec : Section') : NavState :=
  let sectionTop := sec.offsetTop - SCROLL_OFFSET
  if scrollY ≥ sectionTop ∧ scrollY > 0 then
    { s with activeId := sec.id }
  else
    s

/-- `handleScroll`: returns immediately when `isManualScroll`, otherwise
iterates `scrollStep` over the cached `div[data-section]` node list
(`sections`, in document order) at the current `window.scrollY`. -/
def handleScroll (sections : List Section') (scrollY : Int) (s : NavState) : NavState :=
  if s.isManualScroll then s
  else sections.foldl (scrollStep scrollY) s

/-- The initialization performed by the `useEffect` body before it
registers the listener: `if (!activeId) setActiveId("get-involved")`.
The only falsy string is the empty string. -/
def effectInit (s : NavState) : NavState :=
  if s.activeId = "" then { s with activeId := "get-involved" } else s

/-- The command passed to `window.scrollTo` by `scrollToId`. -/
structure ScrollCmd where
  behavior : String
  top : Int
  deriving DecidableEq, Repr

/-- The outcome of one `scrollToId` call: the React state afterwards, the
`window.scrollTo` command it issued (if any), and whether the 800 ms
`setTimeout(() => setIsManualScroll(false), 800)` was scheduled. -/
structure ScrollToResult where
  state : NavState
  scrollCmd : Option ScrollCmd
  timeoutScheduled : Bool
  deriving DecidableEq, Repr

/-- `document.getElementById(id)`: the first element of the document with
the given id (ids are unique in a well-formed document). -/
def getElementById (doc : List Section') (id : String) : Option Section' :=
  doc.find? (fun e => e.id = id)

/-- `scrollToId`: looks the id up in the document; when the element exists
it sets the active id, raises `isManualScroll` and issues a smooth scroll
to `top - SCROLL_OFFSET`; in every case it schedules the 800 ms timeout
that clears `isManualScroll`. -/
def scrollToId (doc : List Section') (id : String) (s : NavState) : ScrollToResult :=
  let element := getElementById doc id
  let top : Int := (element.map Section'.offsetTop).getD 0
  match element with
  | some _ =>
      { state := { activeId := id, isManualScroll := true }
        scrollCmd := some { behavior := "smooth", top := top - SCROLL_OFFSET }
        timeoutScheduled := true }
  | none =>
      { state := s, scrollCmd := none, timeoutScheduled := true }

/-- The action of the 800 ms timeout: `setIsManualScroll(false)`. -/
def timeoutAction (s : NavState) : NavState :=
  { s with isManualScroll := false }

/-! ### Basic lemmas about `handleScroll` -/

theorem scrollStep_isManualScroll (y : Int) (s : NavState) (sec : Section') :
    (scrollStep y s sec).isManualScroll = s.isManualScroll := by
  simp only [scrollStep]
  split <;> rfl

theorem foldl_scrollStep_isManualScroll (sections : List Section') (y : Int)
    (s : NavState) :
    (sections.foldl (scrollStep y) s).isManualScroll = s.isManualScroll := by
  induction sections generalizing s with
  | nil => rfl
  | cons a l ih =>
      rw [List.foldl_cons, ih, scrollStep_isManualScroll]

theorem handleScroll_isManualScroll (sections : List Section') (y : Int)
    (s : NavState) :
    (handleScroll sections y s).isManualScroll = s.isManualScroll := by
  unfold handleScroll
  split
  · rfl
  · exact foldl_scrollStep_isManualScroll sections y s

/-- The predicate under which one loop iteration of `handleScroll` fires. -/
def scrollHits (y : Int) (sec : Section') : Bool :=
  decide (y ≥ sec.offsetTop - SCROLL_OFFSET ∧ y > 0)

theorem scrollStep_eq (y : Int) (s : NavState) (sec : Section') :
    scrollStep y s sec =
      if scrollHits y sec then { s with activeId := sec.id } else s := by
  unfold scrollStep scrollHits
  by_cases h : y ≥ sec.offsetTop - SCROLL_OFFSET ∧ y > 0 <;> simp [h]

/-- The loop in `handleScroll` leaves the active id at the id of the last
section it fires on, and untouched when it fires on none. -/
theorem foldl_scrollStep_activeId (sections : List Section') (y : Int)
    (s : NavState) :
    (sections.foldl (scrollStep y) s).activeId =
      match (sections.filter (scrollHits y)).getLast? with
      | some sec => sec.id
      | none => s.activeId := by
  induction sections generalizing s with
  | nil => rfl
  | cons a l ih =>
      rw [List.foldl_cons, ih, scrollStep_eq, List.filter_cons]
      by_cases hp : scrollHits y a
      · rw [if_pos hp, if_pos hp]
        cases hl : (l.filter (scrollHits y)) with
        | nil => rfl
        | cons b t =>
            rw [List.getLast?_cons_cons]
            cases h2 : (b :: t).getLast? with
            | none => exact absurd (List.getLast?_eq_none_iff.mp h2) (by simp)
            | some x => rfl
      · rw [if_neg hp, if_neg hp]

/-! ### The navigation items -/

/-- Modelled from the spec: the nav labels come from `LABELS`
(`@/app/labels`), a module that is not under `src/`; each label value is
identified here by its key path, which is all the page depends on. -/
def LABELS_RESOURCES_PAGE_NAV : List (String × String) :=
  [("GET_INVOLVED", "RESOURCES_PAGE.NAV.GET_INVOLVED"),
   ("LEARN", "RESOURCES_PAGE.NAV.LEARN"),
   ("BUILD", "RESOURCES_PAGE.NAV.BUILD"),
   ("DESIGN", "RESOURCES_PAGE.NAV.DESIGN")]

/-- `ID_LABELS_MAPPING`, in the object-literal insertion order that
`Object.entries` preserves for non-index string keys. -/
def ID_LABELS_MAPPING : List (String × String) :=
  [("get-involved", "RESOURCES_PAGE.NAV.GET_INVOLVED"),
   ("learn", "RESOURCES_PAGE.NAV.LEARN"),
   ("build", "RESOURCES_PAGE.NAV.BUILD"),
   ("design", "RESOURCES_PAGE.NAV.DESIGN")]

/-- The section ids of the navigation, in render order. -/
def navIds : List String := ID_LABELS_MAPPING.map Prod.fst

/-- One rendered `<li>` of the nav: its `data-id`, its text, whether it
carries the active styling (`id === activeId`), and the id its `onClick`
handler passes to `scrollToId`. -/
structure NavItem where
  id : String
  label : String
  active : Bool
  clickTarget : String
  deriving DecidableEq, Repr

/-- The list rendered by
`Object.entries(ID_LABELS_MAPPING).map(([id, label]) => ...)`: each entry
becomes one item whose click handler calls `scrollToId(id)`. -/
def renderNav (activeId : String) : List NavItem :=
  ID_LABELS_MAPPING.map fun p =>
    { id := p.1, label := p.2, active := p.1 == activeId, clickTarget := p.1 }

/-! ### The Icons record -/

/-- Modelled from the spec: the `Icons` record (`@/components/icons`) is
not under `src/`; each icon component is identified by its name.  Its keys
include every name the page's `icon` prop type and usages mention. -/
def Icons : List (String × String) :=
  [("globe", "globe"), ("discord", "discord"), ("twitter", "twitter"),
   ("gitHub", "gitHub"), ("notion", "notion"), ("figma", "figma"),
   ("drive", "drive"), ("externalUrl", "externalUrl")]

/-- `Icons.globe`, the fallback icon. -/
def Icons_globe : String := "globe"

/-- The icon chosen by `ResourceItem`: the destructuring default
`icon = "globe"` applies when the prop is omitted, then
`Icons?.[icon as keyof typeof Icons] ?? Icons.globe` falls back to
`Icons.globe` when the name is not a key of the record. -/
def resolveIcon (icon : Option String) : String :=
  (Icons.lookup (icon.getD "globe")).getD Icons_globe

/-! ### The scroll listener lifecycle -/

/-- The listener registration of the effect body:
`window.addEventListener("scroll", handleScroll)`. -/
def addScrollListener (ls : List String) : List String :=
  ls ++ ["handleScroll"]

/-- The effect cleanup:
`() => window.removeEventListener("scroll", handleScroll)`, which removes
the one matching listener. -/
def removeScrollListener (ls : List String) : List String :=
  ls.erase "handleScroll"

/-- The window's scroll-listener list after the mount run of the effect
and `n` re-runs; React runs the previous cleanup before each re-run. -/
def listenersAfter : Nat → List String
  | 0 => addScrollListener []
  | n + 1 => addScrollListener (removeScrollListener (listenersAfter n))

/-! ### Claim theorems: rendering, listeners, defaults, icons -/

/-- C4: the side navigation always renders exactly four items, in the
fixed order get-involved, learn, build, design taken from
`ID_LABELS_MAPPING`, and each item's click handler targets exactly that
item's own id. -/
theorem nav_renders_four_fixed_items (activeId : String) :
    (renderNav activeId).length = 4 ∧
    (renderNav activeId).map NavItem.id = ["get-involved", "learn", "build", "design"] ∧
    ((renderNav activeId).all fun it => it.clickTarget == it.id) = true := by
  refine ⟨rfl, rfl, ?_⟩
  rfl

/-- C6: every effect run registers exactly one scroll listener and its
cleanup removes that same listener, so however many times the effect
re-runs, exactly the one `handleScroll` listener is registered. -/
theorem scroll_listeners_never_accumulate :
    (∀ ls, (addScrollListener ls).length = ls.length + 1) ∧
    (∀ n, listenersAfter n = ["handleScroll"]) := by
  constructor
  · intro ls
    simp [addScrollListener]
  · intro n
    induction n with
    | zero => rfl
    | succ k ih => rw [listenersAfter, ih]; rfl

/-- C7: when the effect runs with the active id equal to the empty string
(the initial state), it sets the active id to "get-involved", so the
first rendered navigation item is the highlighted one. -/
theorem effect_defaults_active_to_get_involved (s : NavState)
    (h : s.activeId = "") :
    (effectInit s).activeId = "get-involved" ∧
    ((renderNav (effectInit s).activeId).map NavItem.active) =
      [true, false, false, false] := by
  constructor
  · simp [effectInit, h]
  · simp [effectInit, h, renderNav, ID_LABELS_MAPPING]

/-- C7 witness: on the actual initial state. -/
theorem effect_defaults_active_to_get_involved_holds :
    (effectInit initialState).activeId = "get-involved" ∧
    ((renderNav (effectInit initialState).activeId).map NavItem.active) =
      [true, false, false, false] :=
  effect_defaults_active_to_get_involved initialState rfl

/-- C8: if the `icon` prop is omitted or does not name a key of the
`Icons` record, `ResourceItem` renders `Icons.globe`; otherwise it
renders the icon that key names. -/
theorem icon_falls_back_to_globe :
    resolveIcon none = Icons_globe ∧
    (∀ s, Icons.lookup s = none → resolveIcon (some s) = Icons_globe) ∧
    (∀ s v, Icons.lookup s = some v → resolveIcon (some s) = v) := by
  refine ⟨rfl, ?_, ?_⟩
  · intro s h
    simp [resolveIcon, h]
  · intro s v h
    simp [resolveIcon, h]

/-- C8 witness: omitted prop and an unknown name give the globe icon; a
known name gives its own icon. -/
theorem icon_falls_back_to_globe_holds :
    resolveIcon none = Icons_globe ∧
    resolveIcon (some "youtube") = Icons_globe ∧
    resolveIcon (some "figma") = "figma" :=
  ⟨icon_falls_back_to_globe.1,
   icon_falls_back_to_globe.2.1 "youtube" rfl,
   icon_falls_back_to_globe.2.2 "figma" "figma" rfl⟩

/-! ### The event system of the mounted page -/

/-- An event the mounted page processes: a window scroll at a given
`window.scrollY`, a click on a nav item (which calls `scrollToId`), or
the 800 ms timeout firing. -/
inductive NavEvent where
  | scroll (scrollY : Int)
  | click (id : String)
  | timeout
  deriving DecidableEq, Repr

/-- The state transition one event performs. -/
def stepEvent (doc : List Section') (s : NavState) : NavEvent → NavState
  | NavEvent.scroll y => handleScroll doc y s
  | NavEvent.click id => (scrollToId doc id s).state
  | NavEvent.timeout => timeoutAction s

/-- Events the page can actually deliver: scrolls and timeouts are
arbitrary, but the only click handlers in the markup are those of the nav
items, which call `scrollToId` on keys of `ID_LABELS_MAPPING`. -/
def ValidEvent : NavEvent → Prop
  | NavEvent.click id => id ∈ navIds
  | _ => True

/-- Modelled from the spec: the curated content
(`src/content/resources.md`, not under `src/`) renders one `ResourceCard`
section per nav entry of the scroll-synchronized side navigation, so the
`div[data-section]` elements are exactly the four nav sections; their
offsets are arbitrary. -/
def resourceDoc (tops : String → Int) : List Section' :=
  navIds.map fun id => { id := id, offsetTop := tops id }

/-- The states reachable once the mount effect has initialized the active
id, closed under the page's events. -/
inductive Reachable (tops : String → Int) : NavState → Prop
  | mount : Reachable tops (effectInit initialState)
  | step (s : NavState) (e : NavEvent) : Reachable tops s → ValidEvent e →
      Reachable tops (stepEvent (resourceDoc tops) s e)

theorem NavState_eq (s t : NavState) (h1 : s.activeId = t.activeId)
    (h2 : s.isManualScroll = t.isManualScroll) : s = t := by
  cases s
  cases t
  simp_all

/-- `handleScroll` either keeps the active id or moves it to the id of
one of the document's sections. -/
theorem handleScroll_activeId_cases (doc : List Section') (y : Int)
    (s : NavState) :
    (handleScroll doc y s).activeId = s.activeId ∨
    (handleScroll doc y s).activeId ∈ doc.map Section'.id := by
  unfold handleScroll
  split
  · exact Or.inl rfl
  · rw [foldl_scrollStep_activeId]
    cases h : (doc.filter (scrollHits y)).getLast? with
    | none => exact Or.inl rfl
    | some sec =>
        right
        have hsec : sec ∈ (doc.filter (scrollHits y)).getLast? := h
        obtain ⟨hne, heq⟩ := List.mem_getLast?_eq_getLast hsec
        have hmem : sec ∈ doc.filter (scrollHits y) := heq ▸ List.getLast_mem hne
        exact List.mem_map_of_mem Section'.id (List.mem_of_mem_filter hmem)

theorem resourceDoc_map_id (tops : String → Int) :
    (resourceDoc tops).map Section'.id = navIds := by
  rw [resourceDoc, List.map_map]
  exact List.map_id navIds

theorem reachable_activeId_mem (tops : String → Int) (s : NavState)
    (h : Reachable tops s) : s.activeId ∈ navIds := by
  induction h with
  | mount => decide
  | step s' e hr hv ih =>
      cases e with
      | scroll y =>
          rcases handleScroll_activeId_cases (resourceDoc tops) y s' with h1 | h1
          · exact h1 ▸ ih
          · rw [resourceDoc_map_id] at h1
            exact h1
      | click id =>
          have hv' : id ∈ navIds := hv
          simp only [stepEvent, scrollToId]
          cases hel : getElementById (resourceDoc tops) id with
          | some e => simpa [hel] using hv'
          | none => simpa [hel] using ih
      | timeout => simpa [stepEvent, timeoutAction] using ih

/-! ### Claim theorems: the scroll-spy callbacks -/

/-- C1: with manual-scroll mode off, a scroll event at `window.scrollY > 0`
moves the active id to the id of the last section (in document order)
whose `offsetTop - 80` is at most `window.scrollY`; at `window.scrollY = 0`,
or when no section qualifies, the active id is left unchanged. -/
theorem scrollspy_tracks_last_passed_section (sections : List Section')
    (y : Int) (s : NavState) (hm : s.isManualScroll = false) :
    (0 < y →
      (handleScroll sections y s).activeId =
        match (sections.filter fun sec =>
            decide (sec.offsetTop - SCROLL_OFFSET ≤ y)).getLast? with
        | some sec => sec.id
        | none => s.activeId) ∧
    (y = 0 → handleScroll sections y s = s) := by
  constructor
  · intro hy
    unfold handleScroll
    rw [if_neg (by simp [hm])]
    rw [foldl_scrollStep_activeId]
    have hpred : scrollHits y = fun sec =>
        decide (sec.offsetTop - SCROLL_OFFSET ≤ y) := by
      funext sec
      simp [scrollHits, hy, ge_iff_le]
    rw [hpred]
  · intro hy
    subst hy
    unfold handleScroll
    rw [if_neg (by simp [hm])]
    refine NavState_eq _ _ ?_ (foldl_scrollStep_isManualScroll sections 0 s)
    rw [foldl_scrollStep_activeId]
    have hnil : sections.filter (scrollHits 0) = [] := by
      induction sections with
      | nil => rfl
      | cons a l ih => simp [List.filter_cons, scrollHits, ih]
    rw [hnil]
    rfl

/-- C1 witness: two sections at offsets 100 and 400; at scroll position
350 both have been passed, so the later one becomes active, and at scroll
position 0 nothing changes. -/
theorem scrollspy_tracks_last_passed_section_holds :
    (handleScroll [⟨"get-involved", 100⟩, ⟨"learn", 400⟩] 350
        ⟨"get-involved", false⟩).activeId = "learn" ∧
    handleScroll [⟨"get-involved", 100⟩, ⟨"learn", 400⟩] 0
        ⟨"get-involved", false⟩ = ⟨"get-involved", false⟩ := by
  constructor
  · have h := (scrollspy_tracks_last_passed_section
      [⟨"get-involved", 100⟩, ⟨"learn", 400⟩] 350 ⟨"get-involved", false⟩
      rfl).1 (by decide)
    rw [h]
    rfl
  · exact (scrollspy_tracks_last_passed_section
      [⟨"get-involved", 100⟩, ⟨"learn", 400⟩] 0 ⟨"get-involved", false⟩
      rfl).2 rfl

/-- C2: clicking a nav item whose section exists raises `isManualScroll`;
any scroll event on a state with `isManualScroll` set leaves the state
unchanged (in particular any number of scroll events after the click),
and the 800 ms timeout is what clears `isManualScroll` again. -/
theorem click_suppresses_scroll_until_timeout (doc : List Section')
    (id : String) (s : NavState) (h : (getElementById doc id).isSome) :
    (scrollToId doc id s).state.isManualScroll = true ∧
    (∀ (d : List Section') (y : Int) (t : NavState),
      t.isManualScroll = true → handleScroll d y t = t) ∧
    (∀ ys : List Int,
      ys.foldl (fun t y => handleScroll doc y t) (scrollToId doc id s).state =
        (scrollToId doc id s).state) ∧
    (timeoutAction (scrollToId doc id s).state).isManualScroll = false := by
  obtain ⟨e, he⟩ := Option.isSome_iff_exists.mp h
  have hstate : (scrollToId doc id s).state =
      { activeId := id, isManualScroll := true } := by
    simp [scrollToId, he]
  have hfrozen : ∀ (d : List Section') (y : Int) (t : NavState),
      t.isManualScroll = true → handleScroll d y t = t := by
    intro d y t ht
    simp [handleScroll, ht]
  refine ⟨by rw [hstate], hfrozen, ?_, by simp [timeoutAction]⟩
  intro ys
  induction ys with
  | nil => rfl
  | cons y t ih =>
      rw [List.foldl_cons, hfrozen doc y _ (by rw [hstate]), ih]

/-- C2 witness: with one section "learn", clicking "learn" raises the
flag, a scroll event at position 500 then leaves the state unchanged, and
the timeout clears the flag. -/
theorem click_suppresses_scroll_until_timeout_holds :
    (scrollToId [⟨"learn", 300⟩] "learn" initialState).state.isManualScroll = true ∧
    handleScroll [⟨"learn", 300⟩] 500
        (scrollToId [⟨"learn", 300⟩] "learn" initialState).state =
      (scrollToId [⟨"learn", 300⟩] "learn" initialState).state ∧
    (timeoutAction
        (scrollToId [⟨"learn", 300⟩] "learn" initialState).state).isManualScroll =
      false := by
  have h := click_suppresses_scroll_until_timeout [⟨"learn", 300⟩] "learn"
    initialState (by decide)
  exact ⟨h.1, h.2.1 [⟨"learn", 300⟩] 500 _ h.1, h.2.2.2⟩

/-- C3: clicking a nav item whose id names an existing element sets the
active id to that id and issues a smooth scroll to the element's
`offsetTop - 80`. -/
theorem click_scrolls_smoothly_to_section (doc : List Section') (id : String)
    (s : NavState) (e : Section') (h : getElementById doc id = some e) :
    (scrollToId doc id s).state.activeId = id ∧
    (scrollToId doc id s).scrollCmd =
      some { behavior := "smooth", top := e.offsetTop - SCROLL_OFFSET } := by
  simp [scrollToId, h]

/-- C3 witness: clicking "build" with the build section at offset 1200
activates it and smooth-scrolls to 1120. -/
theorem click_scrolls_smoothly_to_section_holds :
    (scrollToId [⟨"build", 1200⟩] "build" initialState).state.activeId = "build" ∧
    (scrollToId [⟨"build", 1200⟩] "build" initialState).scrollCmd =
      some { behavior := "smooth", top := 1120 } :=
  click_scrolls_smoothly_to_section [⟨"build", 1200⟩] "build" initialState
    ⟨"build", 1200⟩ rfl

/-- C5: in every state reachable after the mount effect, the active id is
one of the four section ids, and exactly one rendered nav item carries
the active styling. -/
theorem nav_highlights_exactly_one_section (tops : String → Int)
    (s : NavState) (h : Reachable tops s) :
    s.activeId ∈ navIds ∧
    ((renderNav s.activeId).countP fun it => it.active) = 1 := by
  have hmem := reachable_activeId_mem tops s h
  refine ⟨hmem, ?_⟩
  have hmem' : s.activeId = "get-involved" ∨ s.activeId = "learn" ∨
      s.activeId = "build" ∨ s.activeId = "design" := by
    simpa [navIds, ID_LABELS_MAPPING] using hmem
  rcases hmem' with h1 | h1 | h1 | h1 <;> rw [h1] <;> rfl

/-- C5 witness: the state right after the mount effect. -/
theorem nav_highlights_exactly_one_section_holds :
    (effectInit initialState).activeId ∈ navIds ∧
    ((renderNav (effectInit initialState).activeId).countP fun it => it.active) = 1 :=
  nav_highlights_exactly_one_section (fun _ => 0) (effectInit initialState)
    Reachable.mount

/-- C9: calling `scrollToId` with an id that matches no element leaves the
state unchanged (so `isManualScroll` is never raised), issues no scroll,
and still schedules the 800 ms timeout, which leaves `isManualScroll`
false. -/
theorem missing_target_click_is_noop (doc : List Section') (id : String)
    (s : NavState) (h : getElementById doc id = none) :
    (scrollToId doc id s).state = s ∧
    (scrollToId doc id s).scrollCmd = none ∧
    (scrollToId doc id s).timeoutScheduled = true ∧
    (timeoutAction (scrollToId doc id s).state).isManualScroll = false := by
  simp [scrollToId, h, timeoutAction]

/-- C9 witness: clicking an id absent from a one-section document. -/
theorem missing_target_click_is_noop_holds :
    (scrollToId [⟨"learn", 300⟩] "missing" initialState).state = initialState ∧
    (scrollToId [⟨"learn", 300⟩] "missing" initialState).scrollCmd = none ∧
    (scrollToId [⟨"learn", 300⟩] "missing" initialState).timeoutScheduled = true ∧
    (timeoutAction
        (scrollToId [⟨"learn", 300⟩] "missing" initialState).state).isManualScroll =
      false :=
  missing_target_click_is_noop [⟨"learn", 300⟩] "missing" initialState rfl
